import Mathlib

/-!
A shallow embedding of the interaction-response handling of the disgo
repository: the `respond` closure and `handleInteraction` dispatcher
(handlers package) and the `InteractionResponseState` tracker with its
accessors (events package, interaction_events.go), together with theorems
settling the specification's claims about them.

Modelling conventions:
* Go pointers that may be nil are `Option`; the state cell
  `ResponseTypeValue *discord.InteractionResponseType` is
  `Option InteractionResponseType`.
* The responder closure runs concurrently with other holders of the same
  `InteractionResponseState`.  Its two observations of the cell — the
  `ResponseType()` read at entry and the `ResponseTypeValue` read under the
  mutex at commit time — are therefore separate parameters
  (`entryValue`, `commitValue`); the sequential wrapper `respondOnce`
  identifies them.
* The outbound transport (the injected `httpserver.RespondFunc` or
  `client.Rest.CreateInteractionResponse`) is modelled by its observable
  effect: which sink is called with which arguments is recorded in a trace,
  and its result is a parameter `transportErr`.
-/

namespace Disgo

/-- Modelled from the spec: the `discord` package is not among the sources;
§3 enumerates the legal first-reply shapes of `discord.InteractionResponseType`
as an enumerated tag (acknowledge, create-message, deferred-create-message,
deferred-update-message, update-message, modal, autocomplete-result,
launch-activity).  Only distinctness of the tags matters here. -/
inductive InteractionResponseType where
  | Acknowledge
  | CreateMessage
  | DeferredCreateMessage
  | DeferredUpdateMessage
  | UpdateMessage
  | Modal
  | AutocompleteResult
  | LaunchActivity
deriving DecidableEq, Repr, BEq

/-- Modelled from the spec: `discord.InteractionResponseData` payload shapes,
per §4.4 (nil data, message create with flags, message update, modal create,
autocomplete choices).  Payload contents are opaque and carried as `Nat`. -/
inductive InteractionResponseData where
  | null
  | messageCreate (flags : Nat)
  | messageUpdate (payload : Nat)
  | modalCreate (payload : Nat)
  | autocompleteData (choices : List Nat)
deriving DecidableEq, Repr, BEq

/-- Modelled from the spec: Go `error` values crossing the responder boundary
(§7 taxonomy): `discord.ErrInteractionAlreadyReplied` and opaque transport
failures preserved verbatim. -/
inductive GoError where
  | interactionAlreadyReplied
  | transportFailure (code : Nat)
deriving DecidableEq, Repr, BEq

/-- `events.InteractionResponseState` (interaction_events.go line 16): the
mutex is the concurrency model above, the data is the optional stored type. -/
structure InteractionResponseState where
  ResponseTypeValue : Option InteractionResponseType
deriving DecidableEq, Repr, BEq

/-- `events.NewInteractionResponseState` (interaction_events.go line 21). -/
def NewInteractionResponseState : InteractionResponseState :=
  { ResponseTypeValue := none }

/-- `(s *InteractionResponseState) ResponseType()` (interaction_events.go
lines 25–36).  The receiver may be nil (`none`); otherwise a snapshot copy of
the stored value is returned. -/
def ResponseType (s : Option InteractionResponseState) :
    Option InteractionResponseType :=
  match s with
  | none => none
  | some st =>
    match st.ResponseTypeValue with
    | none => none
    | some responseType => some responseType

/-- `(s *InteractionResponseState) IsDefferedReply()` (interaction_events.go
lines 38–41). -/
def IsDefferedReply (s : Option InteractionResponseState) : Bool :=
  match ResponseType s with
  | none => false
  | some responseType => responseType == .DeferredCreateMessage

/-- `(s *InteractionResponseState) IsDefferedUpdate()` (interaction_events.go
lines 43–46). -/
def IsDefferedUpdate (s : Option InteractionResponseState) : Bool :=
  match ResponseType s with
  | none => false
  | some responseType => responseType == .DeferredUpdateMessage

/-- `discord.InteractionResponse` as built by `respond` (part_000
lines 25–28). -/
structure InteractionResponse where
  type : InteractionResponseType
  data : InteractionResponseData
deriving DecidableEq, Repr, BEq

/-- One call to `client.Rest.CreateInteractionResponse` (part_000 line 34):
the interaction's ID, token and the response passed. -/
structure RestCall where
  interactionID : Nat
  token : String
  response : InteractionResponse
deriving DecidableEq, Repr, BEq

/-- Observable outcome of one invocation of the responder closure:
the returned error (`none` = nil error = success), the write this invocation
performed on `ResponseTypeValue` (`none` = no write), and the trace of
outbound transport calls it made. -/
structure SendOutcome where
  err : Option GoError
  wrote : Option InteractionResponseType
  respondFuncCalls : List InteractionResponse
  restCalls : List RestCall
deriving DecidableEq, Repr, BEq

/-- The body of the closure returned by `respond` (part_000 lines 19–49).
`hasRespondFunc` is whether a direct response sink (`respondFunc`) was
supplied at dispatch time; `transportErr` is the error returned by whichever
sink is invoked; `entryValue` is the cell value seen by the
`responseState.ResponseType()` check at line 21; `commitValue` is the cell
value seen under the mutex at line 42 (they differ only if another holder of
the state wrote between the two reads). -/
def respond (hasRespondFunc : Bool) (transportErr : Option GoError)
    (interactionID : Nat) (token : String)
    (entryValue commitValue : Option InteractionResponseType)
    (responseType : InteractionResponseType)
    (data : InteractionResponseData) : SendOutcome :=
  if (ResponseType (some { ResponseTypeValue := entryValue })).isSome then
    { err := some .interactionAlreadyReplied, wrote := none,
      respondFuncCalls := [], restCalls := [] }
  else
    let response : InteractionResponse := { type := responseType, data := data }
    let respondFuncCalls : List InteractionResponse :=
      if hasRespondFunc then [response] else []
    let restCalls : List RestCall :=
      if hasRespondFunc then []
      else [{ interactionID := interactionID, token := token,
              response := response }]
    match transportErr with
    | some e =>
      { err := some e, wrote := none,
        respondFuncCalls := respondFuncCalls, restCalls := restCalls }
    | none =>
      if commitValue.isSome then
        { err := some .interactionAlreadyReplied, wrote := none,
          respondFuncCalls := respondFuncCalls, restCalls := restCalls }
      else
        { err := none, wrote := some responseType,
          respondFuncCalls := respondFuncCalls, restCalls := restCalls }

/-- One responder invocation with no interleaved writer: both observations of
the cell see the same value `st`, and the cell afterwards holds the write if
one was performed. -/
def respondOnce (hasRespondFunc : Bool) (transportErr : Option GoError)
    (interactionID : Nat) (token : String)
    (st : Option InteractionResponseType)
    (responseType : InteractionResponseType)
    (data : InteractionResponseData) :
    SendOutcome × Option InteractionResponseType :=
  let o := respond hasRespondFunc transportErr interactionID token st st
    responseType data
  (o, match o.wrote with
      | some k => some k
      | none => st)

/-- Per-call inputs of a responder invocation in a sequence: the transport
result for that call and the kind and payload sent. -/
structure SendCall where
  transportErr : Option GoError
  responseType : InteractionResponseType
  data : InteractionResponseData
deriving DecidableEq, Repr, BEq

/-- The cell value after a sequence of responder invocations, threaded
sequentially. -/
def respondSeq (hasRespondFunc : Bool) (interactionID : Nat) (token : String)
    (st : Option InteractionResponseType) (calls : List SendCall) :
    Option InteractionResponseType :=
  calls.foldl
    (fun s c =>
      (respondOnce hasRespondFunc c.transportErr interactionID token s
        c.responseType c.data).2)
    st

/-- The type-switch discriminant of `handleInteraction` (part_000
lines 63–98): the four known `discord.Interaction` variants plus any other
implementation of the interface; the payload carries the variant's opaque
data. -/
inductive Interaction where
  | applicationCommand (payload : Nat)
  | component (payload : Nat)
  | autocomplete (payload : Nat)
  | modalSubmit (payload : Nat)
  | unknown (typeName : String)
deriving DecidableEq, Repr, BEq

/-- The event structs dispatched by `handleInteraction`
(interaction_events.go lines 49, 107, 208, 319, 373). -/
inductive EventKind where
  | interactionCreate
  | applicationCommandInteractionCreate
  | componentInteractionCreate
  | autocompleteInteractionCreate
  | modalSubmitInteractionCreate
deriving DecidableEq, Repr, BEq

/-- One dispatched event, with references identifying which
`InteractionResponseState` and which responder closure instance were placed
in its `ResponseState` and `Respond` fields. -/
structure DispatchedEvent where
  kind : EventKind
  stateRef : Nat
  responderRef : Nat
deriving DecidableEq, Repr, BEq

/-- One `client.Logger.Error` report (part_000 line 97). -/
structure LogEntry where
  msg : String
  typeName : String
deriving DecidableEq, Repr, BEq

/-- `handleInteraction` (part_000 lines 51–99), modelled by its dispatch
trace: the list of events handed to `client.EventManager.DispatchEvent`, in
order, and the diagnostic log reports.  `stateRef`/`responderRef` name the
single fresh `InteractionResponseState` allocated at line 53 and the single
responder closure built at line 54; every dispatched event receives these
same two references. -/
def handleInteraction (stateRef responderRef : Nat)
    (interaction : Interaction) : List DispatchedEvent × List LogEntry :=
  let generic : DispatchedEvent :=
    { kind := .interactionCreate, stateRef := stateRef,
      responderRef := responderRef }
  match interaction with
  | .applicationCommand _ =>
    ([generic,
      { kind := .applicationCommandInteractionCreate, stateRef := stateRef,
        responderRef := responderRef }], [])
  | .component _ =>
    ([generic,
      { kind := .componentInteractionCreate, stateRef := stateRef,
        responderRef := responderRef }], [])
  | .autocomplete _ =>
    ([generic,
      { kind := .autocompleteInteractionCreate, stateRef := stateRef,
        responderRef := responderRef }], [])
  | .modalSubmit _ =>
    ([generic,
      { kind := .modalSubmitInteractionCreate, stateRef := stateRef,
        responderRef := responderRef }], [])
  | .unknown typeName =>
    ([generic], [{ msg := "unknown interaction", typeName := typeName }])

/-- The variant-specific event kind `handleInteraction` dispatches for an
interaction, `none` for an unrecognised variant (the switch cases of part_000
lines 63–98). -/
def variantEventKind (interaction : Interaction) : Option EventKind :=
  match interaction with
  | .applicationCommand _ => some .applicationCommandInteractionCreate
  | .component _ => some .componentInteractionCreate
  | .autocomplete _ => some .autocompleteInteractionCreate
  | .modalSubmit _ => some .modalSubmitInteractionCreate
  | .unknown _ => none

/-- The reply-issuing operations a view can expose (the methods of
interaction_events.go that call `e.Respond`). -/
inductive ReplyOp where
  | acknowledge
  | createMessage
  | deferCreateMessage
  | updateMessage
  | deferUpdateMessage
  | modal
  | launchActivity
  | autocompleteResult
deriving DecidableEq, Repr, BEq

/-- The reply-issuing methods defined on `AutocompleteInteractionCreate`
(interaction_events.go lines 319–370): only `Acknowledge` (line 363) and
`AutocompleteResult` (line 368). -/
def autocompleteViewReplyOps : List ReplyOp :=
  [.acknowledge, .autocompleteResult]

/-- `(e *AutocompleteInteractionCreate) AutocompleteResult(choices)`
(interaction_events.go lines 368–370): delegates to the responder with
`InteractionResponseTypeAutocompleteResult` and
`discord.AutocompleteResult{Choices: choices}`. -/
def AutocompleteInteractionCreate.AutocompleteResult
    (hasRespondFunc : Bool) (transportErr : Option GoError)
    (interactionID : Nat) (token : String)
    (st : Option InteractionResponseType) (choices : List Nat) :
    SendOutcome × Option InteractionResponseType :=
  respondOnce hasRespondFunc transportErr interactionID token st
    .AutocompleteResult (.autocompleteData choices)

/-- The pointer structure of `InteractionResponseState` at heap level, for
the aliasing behaviour of `ResponseType()`: `valueAddr` is the
`ResponseTypeValue` pointer as an address into a heap of
`InteractionResponseType` cells. -/
structure StateCell where
  valueAddr : Option Nat
deriving DecidableEq, Repr, BEq

/-- `ResponseType()` (interaction_events.go lines 25–36) at heap level.  The
heap is a list of `InteractionResponseType` cells addressed by index;
allocation appends.  A nil receiver or nil stored pointer returns the heap
unchanged and a nil pointer; otherwise the stored value is copied into a
freshly allocated cell (`responseType := *s.ResponseTypeValue`, line 34) and
a pointer to that fresh cell is returned (line 35). -/
def ResponseTypeAlloc (heap : List InteractionResponseType)
    (s : Option StateCell) : List InteractionResponseType × Option Nat :=
  match s with
  | none => (heap, none)
  | some cell =>
    match cell.valueAddr with
    | none => (heap, none)
    | some addr =>
      match heap[addr]? with
      | none => (heap, none)
      | some v => (heap ++ [v], some heap.length)

/-! ### Helper lemmas -/

/-- A responder call against a state that already stores a kind rejects and
performs no write and no transport call. -/
theorem respond_of_entry_some (hasRespondFunc : Bool)
    (transportErr : Option GoError) (interactionID : Nat) (token : String)
    (k : InteractionResponseType)
    (commitValue : Option InteractionResponseType)
    (kind : InteractionResponseType) (d : InteractionResponseData) :
    respond hasRespondFunc transportErr interactionID token (some k)
        commitValue kind d =
      { err := some .interactionAlreadyReplied, wrote := none,
        respondFuncCalls := [], restCalls := [] } := by
  simp [respond, ResponseType]

/-- A sequential responder call leaves a populated cell untouched. -/
theorem respondOnce_snd_of_some (hasRespondFunc : Bool)
    (transportErr : Option GoError) (interactionID : Nat) (token : String)
    (k : InteractionResponseType)
    (kind : InteractionResponseType) (d : InteractionResponseData) :
    (respondOnce hasRespondFunc transportErr interactionID token (some k)
        kind d).2 = some k := by
  simp [respondOnce, respond_of_entry_some]

/-- A populated cell survives any sequence of responder calls unchanged. -/
theorem respondSeq_of_some (hasRespondFunc : Bool) (interactionID : Nat)
    (token : String) (k : InteractionResponseType) (calls : List SendCall) :
    respondSeq hasRespondFunc interactionID token (some k) calls = some k := by
  induction calls with
  | nil => rfl
  | cons c cs ih =>
    rw [respondSeq, List.foldl_cons, respondOnce_snd_of_some]
    exact ih

/-- A successful sequential responder call stores exactly the kind sent. -/
theorem respondOnce_snd_of_success (hasRespondFunc : Bool)
    (transportErr : Option GoError) (interactionID : Nat) (token : String)
    (st : Option InteractionResponseType)
    (kind : InteractionResponseType) (d : InteractionResponseData)
    (h : (respondOnce hasRespondFunc transportErr interactionID token st
        kind d).1.err = none) :
    (respondOnce hasRespondFunc transportErr interactionID token st
        kind d).2 = some kind := by
  cases st with
  | some k => simp [respondOnce, respond_of_entry_some] at h
  | none =>
    cases transportErr with
    | some e => simp [respondOnce, respond, ResponseType] at h
    | none => simp [respondOnce, respond, ResponseType]

/-! ### Claim theorems -/

/-- C1: for every interaction, calling the responder twice in sequence with
the transport succeeding yields exactly one success and one
`AlreadyReplied`: the first call (of any kind, from any broadcast category —
the responder is the single closure shared by all categories and takes no
category input) returns a nil error, the second returns
`ErrInteractionAlreadyReplied`, and the stored kind is the first call's. -/
theorem send_twice_one_success_one_already_replied
    (hasRespondFunc : Bool) (interactionID : Nat) (token : String)
    (k1 k2 : InteractionResponseType) (d1 d2 : InteractionResponseData) :
    ((respondOnce hasRespondFunc none interactionID token none k1 d1).1.err
      = none) ∧
    ((respondOnce hasRespondFunc none interactionID token
        (respondOnce hasRespondFunc none interactionID token none k1 d1).2
        k2 d2).1.err = some .interactionAlreadyReplied) ∧
    ((respondOnce hasRespondFunc none interactionID token
        (respondOnce hasRespondFunc none interactionID token none k1 d1).2
        k2 d2).2 = some k1) := by
  refine ⟨by simp [respondOnce, respond, ResponseType], ?_, ?_⟩ <;>
    simp [respondOnce, respond, ResponseType]

/-- C2: the stored response type is write-once: a populated cell survives any
sequence of responder calls with its kind intact, and after a responder call
of kind `k` succeeds, `ResponseType()` returns `k` no matter which further
calls follow. -/
theorem response_state_write_once
    (hasRespondFunc : Bool) (transportErr : Option GoError)
    (interactionID : Nat) (token : String)
    (st : Option InteractionResponseType) (k : InteractionResponseType)
    (d : InteractionResponseData) (calls : List SendCall) :
    (respondSeq hasRespondFunc interactionID token (some k) calls = some k) ∧
    ((respondOnce hasRespondFunc transportErr interactionID token st k d).1.err
        = none →
      ResponseType (some ⟨respondSeq hasRespondFunc interactionID token
          (respondOnce hasRespondFunc transportErr interactionID token st
            k d).2 calls⟩) = some k) := by
  refine ⟨respondSeq_of_some _ _ _ _ _, fun h => ?_⟩
  rw [respondOnce_snd_of_success _ _ _ _ _ _ _ h,
    respondSeq_of_some]
  rfl

/-- C2 witness: a concrete successful send of `CreateMessage` followed by a
further `Modal` attempt still reads back `CreateMessage`. -/
theorem response_state_write_once_witness :
    ((respondOnce true none 1 "tok" none .CreateMessage .null).1.err
      = none) ∧
    ResponseType (some ⟨respondSeq true 1 "tok"
        (respondOnce true none 1 "tok" none .CreateMessage .null).2
        [⟨none, .Modal, .null⟩]⟩) = some .CreateMessage :=
  ⟨by decide,
    (response_state_write_once true none 1 "tok" none .CreateMessage .null
      [⟨none, .Modal, .null⟩]).2 (by decide)⟩

/-- C3: when the state already records a kind, the responder returns
`AlreadyReplied` immediately: no direct-sink call, no request-client call, no
write to the stored kind — whatever the transport would have answered and
whatever the cell holds at commit time. -/
theorem already_replied_fast_local_rejection
    (hasRespondFunc : Bool) (transportErr : Option GoError)
    (interactionID : Nat) (token : String) (k : InteractionResponseType)
    (commitValue : Option InteractionResponseType)
    (kind : InteractionResponseType) (d : InteractionResponseData) :
    respond hasRespondFunc transportErr interactionID token (some k)
        commitValue kind d =
      { err := some .interactionAlreadyReplied, wrote := none,
        respondFuncCalls := [], restCalls := [] } := by
  simp [respond, ResponseType]

/-- C4: with an empty state, a transport failure is returned verbatim and
nothing is recorded, so a subsequent call with any (possibly different) kind
and a succeeding transport still succeeds. -/
theorem transport_failure_propagated_verbatim
    (hasRespondFunc : Bool) (e : GoError) (interactionID : Nat)
    (token : String) (k1 k2 : InteractionResponseType)
    (d1 d2 : InteractionResponseData) :
    ((respondOnce hasRespondFunc (some e) interactionID token none k1 d1).1.err
      = some e) ∧
    ((respondOnce hasRespondFunc (some e) interactionID token none k1 d1).2
      = none) ∧
    ((respondOnce hasRespondFunc none interactionID token
        (respondOnce hasRespondFunc (some e) interactionID token none
          k1 d1).2 k2 d2).1.err = none) := by
    refine ⟨?_, ?_, ?_⟩ <;> simp [respondOnce, respond, ResponseType]

/-- C5: if the entry check saw an empty state and the transport call
succeeded, but the cell is found populated at commit time (a concurrent
caller committed in between), the responder returns `AlreadyReplied` and
performs no write, leaving the previously recorded kind in place. -/
theorem commit_race_returns_already_replied
    (hasRespondFunc : Bool) (interactionID : Nat) (token : String)
    (kPrev kind : InteractionResponseType) (d : InteractionResponseData) :
    ((respond hasRespondFunc none interactionID token none (some kPrev)
        kind d).err = some .interactionAlreadyReplied) ∧
    ((respond hasRespondFunc none interactionID token none (some kPrev)
        kind d).wrote = none) := by
  refine ⟨?_, ?_⟩ <;> simp [respond, ResponseType]

/-- C6: `handleInteraction` dispatches the generic `InteractionCreate` event
exactly once and first, then at most one variant-specific event — exactly the
matching one for the four known variants, none (with one diagnostic log
report) for an unknown variant — and every dispatched event carries the same
`ResponseState` and responder references. -/
theorem handle_interaction_dispatch_shape
    (stateRef responderRef : Nat) (interaction : Interaction) :
    ((handleInteraction stateRef responderRef interaction).1.map
        DispatchedEvent.kind =
      .interactionCreate :: (variantEventKind interaction).toList) ∧
    ((handleInteraction stateRef responderRef interaction).1.countP
        (fun e => e.kind == .interactionCreate) = 1) ∧
    ((handleInteraction stateRef responderRef interaction).1.length ≤ 2) ∧
    ((handleInteraction stateRef responderRef interaction).2.length =
      if variantEventKind interaction = none then 1 else 0) ∧
    ((handleInteraction stateRef responderRef interaction).1.all
      (fun e => e.stateRef == stateRef && e.responderRef == responderRef)
      = true) := by
  cases interaction <;>
    simp [handleInteraction, variantEventKind, List.countP,
      List.countP.go] <;>
    decide

/-- C7: on the autocomplete view, `AutocompleteResult` is present while
`CreateMessage`, `DeferCreateMessage`, `UpdateMessage`, `DeferUpdateMessage`,
`Modal` and `LaunchActivity` are all absent, and calling
`AutocompleteResult` twice with the transport succeeding yields one success
and one `AlreadyReplied`. -/
theorem autocomplete_view_only_reply_op
    (hasRespondFunc : Bool) (interactionID : Nat) (token : String)
    (choices1 choices2 : List Nat) :
    (autocompleteViewReplyOps.contains .autocompleteResult = true) ∧
    (autocompleteViewReplyOps.contains .createMessage = false) ∧
    (autocompleteViewReplyOps.contains .deferCreateMessage = false) ∧
    (autocompleteViewReplyOps.contains .updateMessage = false) ∧
    (autocompleteViewReplyOps.contains .deferUpdateMessage = false) ∧
    (autocompleteViewReplyOps.contains .modal = false) ∧
    (autocompleteViewReplyOps.contains .launchActivity = false) ∧
    ((AutocompleteInteractionCreate.AutocompleteResult hasRespondFunc none
        interactionID token none choices1).1.err = none) ∧
    ((AutocompleteInteractionCreate.AutocompleteResult hasRespondFunc none
        interactionID token
        (AutocompleteInteractionCreate.AutocompleteResult hasRespondFunc none
          interactionID token none choices1).2 choices2).1.err =
      some .interactionAlreadyReplied) := by
  refine ⟨by decide, by decide, by decide, by decide, by decide, by decide,
    by decide, ?_, ?_⟩ <;>
    simp [AutocompleteInteractionCreate.AutocompleteResult, respondOnce,
      respond, ResponseType]

/-- C8: `IsDefferedReply` is true exactly when the stored kind is the
deferred-create-message kind, `IsDefferedUpdate` exactly when it is the
deferred-update-message kind, and both are false on a freshly created state
with no recorded kind. -/
theorem deferred_predicates_match_stored_kind (st : InteractionResponseState) :
    (IsDefferedReply (some st) =
      (st.ResponseTypeValue == some .DeferredCreateMessage)) ∧
    (IsDefferedUpdate (some st) =
      (st.ResponseTypeValue == some .DeferredUpdateMessage)) ∧
    (IsDefferedReply (some NewInteractionResponseState) = false) ∧
    (IsDefferedUpdate (some NewInteractionResponseState) = false) := by
  obtain ⟨v⟩ := st
  cases v with
  | none => decide
  | some k => cases k <;> decide

/-- C9: a responder call that passes the entry check performs exactly one
outbound call: through the direct response sink with the built response when
one was supplied, and otherwise through the request client's
create-interaction-response operation with the interaction's ID, token and
the same response — never both. -/
theorem outbound_sink_selection
    (transportErr : Option GoError) (interactionID : Nat) (token : String)
    (commitValue : Option InteractionResponseType)
    (kind : InteractionResponseType) (d : InteractionResponseData) :
    ((respond true transportErr interactionID token none commitValue
        kind d).respondFuncCalls = [{ type := kind, data := d }]) ∧
    ((respond true transportErr interactionID token none commitValue
        kind d).restCalls = []) ∧
    ((respond false transportErr interactionID token none commitValue
        kind d).respondFuncCalls = []) ∧
    ((respond false transportErr interactionID token none commitValue
        kind d).restCalls =
      [{ interactionID := interactionID, token := token,
         response := { type := kind, data := d } }]) := by
  cases transportErr <;> cases commitValue <;>
    refine ⟨?_, ?_, ?_, ?_⟩ <;> simp [respond, ResponseType]

/-- C10: `ResponseType`, `IsDefferedReply` and `IsDefferedUpdate` are safe on
a nil receiver (returning nil and false), and at heap level `ResponseType`
hands back a pointer to a freshly allocated copy of the stored kind: the
returned address is distinct from the stored one, holds the stored value,
and writing through it leaves the stored cell unchanged. -/
theorem nil_state_safe_and_fresh_copy :
    (∀ heap : List InteractionResponseType,
      ResponseTypeAlloc heap none = (heap, none)) ∧
    ResponseType none = none ∧
    IsDefferedReply none = false ∧
    IsDefferedUpdate none = false ∧
    (∀ (heap : List InteractionResponseType) (addr : Nat)
        (v x : InteractionResponseType),
      heap[addr]? = some v →
        (ResponseTypeAlloc heap (some { valueAddr := some addr })).2 =
          some heap.length ∧
        heap.length ≠ addr ∧
        ((ResponseTypeAlloc heap
            (some { valueAddr := some addr })).1.set heap.length x)[addr]? =
          some v ∧
        (ResponseTypeAlloc heap
            (some { valueAddr := some addr })).1[heap.length]? = some v) := by
  refine ⟨fun heap => rfl, rfl, rfl, rfl, fun heap addr v x h => ?_⟩
  have haddr : addr < heap.length := by
    by_contra hge
    rw [List.getElem?_eq_none (Nat.le_of_not_lt hge)] at h
    exact Option.noConfusion h
  have hne : heap.length ≠ addr := Nat.ne_of_gt haddr
  refine ⟨by simp [ResponseTypeAlloc, h], hne, ?_, ?_⟩
  · rw [ResponseTypeAlloc]
    simp only [h]
    rw [List.getElem?_set_ne hne, List.getElem?_append, if_pos haddr]
    exact h
  · rw [ResponseTypeAlloc]
    simp only [h]
    simp

/-- C10 witness: a one-cell heap storing `Modal` at address 0; the copy goes
to address 1, and overwriting the copy with `CreateMessage` leaves address 0
at `Modal`. -/
theorem nil_state_safe_and_fresh_copy_witness :
    ([InteractionResponseType.Modal][(0 : Nat)]? =
      some InteractionResponseType.Modal) ∧
    ((ResponseTypeAlloc [.Modal] (some { valueAddr := some 0 })).2 =
      some 1 ∧
    (1 : Nat) ≠ 0 ∧
    ((ResponseTypeAlloc [.Modal]
        (some { valueAddr := some 0 })).1.set 1 .CreateMessage)[(0 : Nat)]? =
      some .Modal ∧
    (ResponseTypeAlloc [.Modal] (some { valueAddr := some 0 })).1[(1 : Nat)]?
      = some .Modal) :=
  ⟨by decide,
    nil_state_safe_and_fresh_copy.2.2.2.2 [.Modal] 0 .Modal .CreateMessage
      (by decide)⟩

end Disgo
